import Mathlib

/-! go-gecko: component registration and network ingestion

A shallow embedding of `register.go`, `network/network_input_deivce.go` and
`udp/udp_reader_deivce.go` (with the interface `Driver` of `driver.go`),
followed by theorems about the assembly contract
(unique UUIDs, factory override, hooks, codec classification, configuration
driven registration) and about the serve loops (cancellation, frame delivery,
error classification).

Conventions of the embedding:

* a Go `map[string]V` is an `AList` keyed by `String` (a finite map without
  duplicate keys); `m[k] = v` is `AList.insert`, `_, ok := m[k]` is
  `(AList.lookup k m).isSome`;
* a `container/list` list is a `List`, `PushBack` appends at the end;
* a call of `ZapSugarLogger.Panic*` ends the running call: every method of
  `Registration` returns an `Outcome`, either `ok` with the return value and
  the registry after the call, or `fatal` with the registry as it stood when
  the panic was raised; other log calls have no effect on the state;
* a value of interface type is a record of the interfaces its dynamic type
  satisfies (what a Go type switch or type assertion observes) together with
  the fields its setters write.
-/

namespace Gecko

/-- Go `map[string]V`. -/
abbrev GoMap (V : Type) := AList (fun _ : String => V)

/-- Go `_, ok := m[k]`. -/
def GoMap.has {V : Type} (m : GoMap V) (k : String) : Bool := (m.lookup k).isSome

/-! ## Data model -/

/-- Modelled from the spec: `DeviceAddress`, the value identifying a device
(UUID, group, private label); its declaration is outside the given sources. -/
structure DeviceAddress where
  UUID : String
  Group : String
  Private : String
deriving DecidableEq, Repr

/-- Modelled from the spec: `DeviceAddress.IsValid`, "a valid DeviceAddress
(all three sub-fields non-empty)"; the method is outside the given sources. -/
def DeviceAddress.IsValid (a : DeviceAddress) : Bool :=
  a.UUID ≠ "" && a.Group ≠ "" && a.Private ≠ ""

/-- Modelled from the spec: the product of a `CodecFactory`, seen through the
two codec capabilities the type switch of `AddCodecFactory` tests. -/
structure Codec where
  className : String
  isDecoder : Bool
  isEncoder : Bool
deriving DecidableEq, Repr

/-- Go `Encoder`. -/
abbrev Encoder := Codec

/-- Go `Decoder`. -/
abbrev Decoder := Codec

/-- Go `CodecFactory`, a `func() interface{}`. -/
abbrev CodecFactory := Unit → Codec

/-- Modelled from the spec: `HookFunc`, a lifecycle hook; the registry only
stores hooks, so a hook is represented by a label. -/
structure HookFunc where
  label : String
deriving DecidableEq, Repr

/-- A component built by a `BundleFactory` (Go `interface{}`): the interfaces
its dynamic type satisfies, as seen by `bundle.(type)` and `bundle.(T)`, and
the fields written by `setName`, `setPriority`, `setAddress`, `setEncoder`,
`setDecoder`, `setTopic` and `setTopics`. -/
structure Bundle where
  className : String
  isDriver : Bool
  isInterceptor : Bool
  isVirtualDevice : Bool
  isInputDevice : Bool
  isOutputDevice : Bool
  isPlugin : Bool
  isNeedTopicFilter : Bool
  isInitialize : Bool
  name : String
  priority : Int
  address : DeviceAddress
  encoder : Option Encoder
  decoder : Option Decoder
  topic : String
  topics : List String
deriving DecidableEq, Repr

/-- Go `BundleFactory`, a `func() interface{}`. -/
abbrev BundleFactory := Unit → Bundle

/-- Go `InputDevice` value held by the registry. -/
abbrev InputDevice := Bundle

/-- Go `OutputDevice` value held by the registry. -/
abbrev OutputDevice := Bundle

/-- Go `device.GetAddress()`. -/
def Bundle.GetAddress (b : Bundle) : DeviceAddress := b.address

/-- Go `device.GetEncoder()`; `none` is Go `nil`. -/
def Bundle.GetEncoder (b : Bundle) : Option Encoder := b.encoder

/-- Go `device.GetDecoder()`; `none` is Go `nil`. -/
def Bundle.GetDecoder (b : Bundle) : Option Decoder := b.decoder

/-- Go `bundle.(NeedTopicFilter)`: interface `Driver` embeds `NeedTopicFilter`
(driver.go), so every Driver satisfies it. -/
def Bundle.needsTopicFilter (b : Bundle) : Bool := b.isDriver || b.isNeedTopicFilter

/-- The struct `Registration` of register.go. -/
structure Registration where
  outputsMap : GoMap OutputDevice
  inputsMap : GoMap InputDevice
  decodersMap : GoMap Decoder
  encodersMap : GoMap Encoder
  plugins : List Bundle
  interceptors : List Bundle
  drivers : List Bundle
  outputs : List Bundle
  inputs : List Bundle
  startBeforeHooks : List HookFunc
  startAfterHooks : List HookFunc
  stopBeforeHooks : List HookFunc
  stopAfterHooks : List HookFunc
  factories : GoMap BundleFactory

/-- The reason carried by a `ZapSugarLogger.Panic*` call of register.go, with
the arguments its message is formatted from; `nilFactory` is the runtime panic
of calling a nil function value. -/
inductive Fatal where
  | encoderDuplicate (name : String)
  | decoderDuplicate (name : String)
  | uuidDuplicateInput (uuid : String)
  | uuidDuplicateOutput (uuid : String)
  | unknownCodec (typeName : String)
  | configNotMap (bundleType : String)
  | factoryNotRegistered (bundleType : String)
  | nameRequired (bundleType : String)
  | addressRequired (bundleType : String)
  | encoderRequired (bundleType : String)
  | encoderNotRegistered (name : String)
  | decoderRequired (bundleType : String)
  | decoderNotRegistered (name : String)
  | topicRequired (bundleType : String)
  | unknownVirtualDevice (className : String)
  | unsupportedBundle (bundleType : String)
  | topicsRequired (bundleType : String)
  | nilFactory
deriving DecidableEq, Repr

/-- Result of a method of `Registration`: normal return with the registry
after the call, or a panic with the registry as it stood at the panic. -/
inductive Outcome (α : Type) where
  | ok (ret : α) (re : Registration)
  | fatal (why : Fatal) (re : Registration)

/-- Whether the call panicked. -/
def Outcome.isFatal {α : Type} : Outcome α → Bool
  | .ok _ _ => false
  | .fatal _ _ => true

/-- The registry left behind by the call. -/
def Outcome.state {α : Type} : Outcome α → Registration
  | .ok _ re => re
  | .fatal _ re => re

/-! ## register.go: registry operations -/

/-- register.go `prepare`. -/
def prepare : Registration where
  outputsMap := ∅
  inputsMap := ∅
  decodersMap := ∅
  encodersMap := ∅
  plugins := []
  interceptors := []
  drivers := []
  inputs := []
  outputs := []
  startBeforeHooks := []
  startAfterHooks := []
  stopBeforeHooks := []
  stopAfterHooks := []
  factories := ∅

/-- register.go `Registration.AddEncoder`. -/
def Registration.AddEncoder (re : Registration) (name : String) (encoder : Encoder) :
    Outcome Unit :=
  if re.encodersMap.has name then
    .fatal (.encoderDuplicate name) re
  else
    .ok () { re with encodersMap := re.encodersMap.insert name encoder }

/-- register.go `Registration.AddDecoder`. -/
def Registration.AddDecoder (re : Registration) (name : String) (decoder : Decoder) :
    Outcome Unit :=
  if re.decodersMap.has name then
    .fatal (.decoderDuplicate name) re
  else
    .ok () { re with decodersMap := re.decodersMap.insert name decoder }

/-- register.go `Registration.ensureUniqueUUID`. -/
def Registration.ensureUniqueUUID (re : Registration) (uuid : String) : Outcome String :=
  if re.inputsMap.has uuid then
    .fatal (.uuidDuplicateInput uuid) re
  else if re.outputsMap.has uuid then
    .fatal (.uuidDuplicateOutput uuid) re
  else
    .ok uuid re

/-- register.go `Registration.AddOutputDevice`. -/
def Registration.AddOutputDevice (re : Registration) (device : OutputDevice) : Outcome Unit :=
  match re.ensureUniqueUUID device.GetAddress.UUID with
  | .fatal why re1 => .fatal why re1
  | .ok uuid re1 =>
    .ok () { re1 with
      outputsMap := re1.outputsMap.insert uuid device
      outputs := re1.outputs ++ [device] }

/-- register.go `Registration.AddInputDevice`. -/
def Registration.AddInputDevice (re : Registration) (device : InputDevice) : Outcome Unit :=
  match re.ensureUniqueUUID device.GetAddress.UUID with
  | .fatal why re1 => .fatal why re1
  | .ok uuid re1 =>
    .ok () { re1 with
      inputsMap := re1.inputsMap.insert uuid device
      inputs := re1.inputs ++ [device] }

/-- register.go `Registration.AddPlugin`. -/
def Registration.AddPlugin (re : Registration) (plugin : Bundle) : Outcome Unit :=
  .ok () { re with plugins := re.plugins ++ [plugin] }

/-- register.go `Registration.AddInterceptor`. -/
def Registration.AddInterceptor (re : Registration) (interceptor : Bundle) : Outcome Unit :=
  .ok () { re with interceptors := re.interceptors ++ [interceptor] }

/-- register.go `Registration.AddDriver`. -/
def Registration.AddDriver (re : Registration) (driver : Bundle) : Outcome Unit :=
  .ok () { re with drivers := re.drivers ++ [driver] }

/-- register.go `Registration.AddStartBeforeHook`. -/
def Registration.AddStartBeforeHook (re : Registration) (hook : HookFunc) : Outcome Unit :=
  .ok () { re with startBeforeHooks := re.startBeforeHooks ++ [hook] }

/-- register.go `Registration.AddStartAfterHook`. -/
def Registration.AddStartAfterHook (re : Registration) (hook : HookFunc) : Outcome Unit :=
  .ok () { re with startAfterHooks := re.startAfterHooks ++ [hook] }

/-- register.go `Registration.AddStopBeforeHook`. -/
def Registration.AddStopBeforeHook (re : Registration) (hook : HookFunc) : Outcome Unit :=
  .ok () { re with stopBeforeHooks := re.stopBeforeHooks ++ [hook] }

/-- register.go `Registration.AddStopAfterHook`; the source pushes onto
`re.startAfterHooks` (line 113). -/
def Registration.AddStopAfterHook (re : Registration) (hook : HookFunc) : Outcome Unit :=
  .ok () { re with startAfterHooks := re.startAfterHooks ++ [hook] }

/-- register.go `Registration.AddBundleFactory`; the warning and info log
lines do not change the state. -/
def Registration.AddBundleFactory (re : Registration) (typeName : String)
    (factory : BundleFactory) : Outcome Unit :=
  .ok () { re with factories := re.factories.insert typeName factory }

/-- register.go `Registration.AddCodecFactory`: a type switch, `case Decoder`
first, then `case Encoder`, then `default`. -/
def Registration.AddCodecFactory (re : Registration) (typeName : String)
    (factory : CodecFactory) : Outcome Unit :=
  let codec := factory ()
  if codec.isDecoder then
    re.AddDecoder typeName codec
  else if codec.isEncoder then
    re.AddEncoder typeName codec
  else
    .fatal (.unknownCodec typeName) re

/-- register.go `Registration.findFactory`; `none` is Go `nil`. -/
def Registration.findFactory (re : Registration) (typeName : String) :
    Option BundleFactory × Bool :=
  match re.factories.lookup typeName with
  | some f => (some f, true)
  | none => (none, false)

/-! ## Configuration values (library go-conf)

`cfg.Config` wraps a `map[string]interface{}`. The accessors below follow the
library's contract: a `Must*` accessor returns the zero value of its type when
the key is absent or holds a value of another type. `ForEach` visits the
entries in the order of the list. -/

/-- A configuration value, Go `interface{}` inside a configuration map. -/
inductive Value where
  | null
  | bool (b : Bool)
  | int (i : Int)
  | str (s : String)
  | strs (xs : List String)
  | map (kvs : List (String × Value))

/-- The type `cfg.Config`: the entries of the wrapped map. -/
abbrev Config := List (String × Value)

/-- Library accessor `Config.IsEmpty`. -/
def Config.IsEmpty (c : Config) : Bool := c.isEmpty

/-- Library accessor `Config.MustBool`. -/
def Config.MustBool (c : Config) (key : String) : Bool :=
  match c.lookup key with
  | some (.bool b) => b
  | _ => false

/-- Library accessor `Config.MustString`. -/
def Config.MustString (c : Config) (key : String) : String :=
  match c.lookup key with
  | some (.str s) => s
  | _ => ""

/-- Library accessor `Config.MustInt64`. -/
def Config.MustInt64 (c : Config) (key : String) : Int :=
  match c.lookup key with
  | some (.int i) => i
  | _ => 0

/-- Library accessor `Config.MustStringArray`: the array and whether an error
was returned with it. -/
def Config.MustStringArray (c : Config) (key : String) : List String × Bool :=
  match c.lookup key with
  | some (.strs xs) => (xs, false)
  | _ => ([], true)

/-- Library accessor `Config.MustConfig`. -/
def Config.MustConfig (c : Config) (key : String) : Config :=
  match c.lookup key with
  | some (.map kvs) => kvs
  | _ => []

/-! ## register.go: `registerIfHit`

The components are Go pointers: the registry and the closure share the
component a factory returned. Each factory call is taken to return a fresh
component. `Slot` records where the type switch filed the component, so that
the writes made through the pointer afterwards (`setTopics`, the init hook)
are also seen in the registry. -/

/-- The collection an `Add*` call of the type switch filed the component in;
for a device, also the UUID it was filed under in the mapping. -/
inductive Slot where
  | drivers
  | interceptors
  | inputs (uuid : String)
  | outputs (uuid : String)
  | plugins
deriving DecidableEq, Repr

/-- The last element of the list, which aliases the component, now reads `b`. -/
def replaceLast (xs : List Bundle) (b : Bundle) : List Bundle := xs.dropLast ++ [b]

/-- The registry entry aliasing the component just filed in `slot` reads `b`. -/
def Registration.seeThrough (re : Registration) (slot : Slot) (b : Bundle) : Registration :=
  match slot with
  | .drivers => { re with drivers := replaceLast re.drivers b }
  | .interceptors => { re with interceptors := replaceLast re.interceptors b }
  | .plugins => { re with plugins := replaceLast re.plugins b }
  | .inputs uuid => { re with
      inputs := replaceLast re.inputs b
      inputsMap := re.inputsMap.replace uuid b }
  | .outputs uuid => { re with
      outputs := replaceLast re.outputs b
      outputsMap := re.outputsMap.replace uuid b }

/-- The init hook handed to `registerIfHit` (`initFunc`), as the change it
makes to the component it is given. -/
abbrev InitFunc := Bundle → Config → Bundle

/-- register.go lines 236-289: `case VirtualDevice` of the type switch. On a
normal return the component has been filed; the call returns the component
as configured and the slot it was filed in. -/
def Registration.registerVirtualDevice (re : Registration) (bundleType : String)
    (config : Config) (device : Bundle) : Outcome (Bundle × Slot) :=
  if config.MustString "name" = "" then
    .fatal (.nameRequired bundleType) re
  else
    let device := { device with name := config.MustString "name" }
    let address : DeviceAddress := {
      UUID := config.MustString "uuid"
      Group := config.MustString "group"
      Private := config.MustString "private" }
    if !address.IsValid then
      .fatal (.addressRequired bundleType) re
    else
      let device := { device with address := address }
      -- encoder
      let encoderStep : Except Fatal Bundle :=
        if config.MustString "encoder" = "" then
          if device.GetEncoder = none then .error (.encoderRequired bundleType)
          else .ok device
        else
          match re.encodersMap.lookup (config.MustString "encoder") with
          | some encoder => .ok { device with encoder := some encoder }
          | none => .error (.encoderNotRegistered (config.MustString "encoder"))
      match encoderStep with
      | .error why => .fatal why re
      | .ok device =>
        -- decoder
        let decoderStep : Except Fatal Bundle :=
          if config.MustString "decoder" = "" then
            if device.GetDecoder = none then .error (.decoderRequired bundleType)
            else .ok device
          else
            match re.decodersMap.lookup (config.MustString "decoder") with
            | some decoder => .ok { device with decoder := some decoder }
            | none => .error (.decoderNotRegistered (config.MustString "decoder"))
        match decoderStep with
        | .error why => .fatal why re
        | .ok device =>
          if device.isInputDevice then
            if config.MustString "topic" = "" then
              .fatal (.topicRequired bundleType) re
            else
              let inputDevice := { device with topic := config.MustString "topic" }
              match re.AddInputDevice inputDevice with
              | .fatal why re1 => .fatal why re1
              | .ok _ re1 => .ok (inputDevice, .inputs inputDevice.GetAddress.UUID) re1
          else if device.isOutputDevice then
            match re.AddOutputDevice device with
            | .fatal why re1 => .fatal why re1
            | .ok _ re1 => .ok (device, .outputs device.GetAddress.UUID) re1
          else
            .fatal (.unknownVirtualDevice device.className) re

/-- register.go lines 226-297: the type switch on the factory product, cases
in source order `Driver`, `Interceptor`, `VirtualDevice`, `default`. -/
def Registration.switchBundle (re : Registration) (bundleType : String) (config : Config)
    (bundle : Bundle) : Outcome (Bundle × Slot) :=
  if bundle.isDriver then
    match re.AddDriver bundle with
    | .fatal why re1 => .fatal why re1
    | .ok _ re1 => .ok (bundle, .drivers) re1
  else if bundle.isInterceptor then
    let it := { bundle with priority := config.MustInt64 "priority" }
    match re.AddInterceptor it with
    | .fatal why re1 => .fatal why re1
    | .ok _ re1 => .ok (it, .interceptors) re1
  else if bundle.isVirtualDevice then
    re.registerVirtualDevice bundleType config bundle
  else if bundle.isPlugin then
    match re.AddPlugin bundle with
    | .fatal why re1 => .fatal why re1
    | .ok _ re1 => .ok (bundle, .plugins) re1
  else
    .fatal (.unsupportedBundle bundleType) re

/-- register.go lines 225-311: what the closure does with the product of the
factory: the type switch, then the topic filter, then the init hook.
`setTopics` appends the patterns to those the component holds, as
`AbcDriver.setTopics` does (driver.go). -/
def Registration.registerBundle (re : Registration) (initFunc : InitFunc)
    (bundleType : String) (config : Config) (bundle : Bundle) : Outcome Unit :=
  match re.switchBundle bundleType config bundle with
  | .fatal why re1 => .fatal why re1
  | .ok (bundle, slot) re1 =>
    -- NeedTopicFilter
    let filtered : Outcome Bundle :=
      if bundle.needsTopicFilter then
        if (config.MustStringArray "topics").2 || (config.MustStringArray "topics").1.length = 0 then
          .fatal (.topicsRequired bundleType) re1
        else
          let tf := { bundle with topics := bundle.topics ++ (config.MustStringArray "topics").1 }
          .ok tf (re1.seeThrough slot tf)
      else
        .ok bundle re1
    match filtered with
    | .fatal why re2 => .fatal why re2
    | .ok bundle re2 =>
      -- Initialize
      if bundle.isInitialize then
        let init := initFunc bundle (config.MustConfig "InitArgs")
        .ok () (re2.seeThrough slot init)
      else
        .ok () re2

/-- register.go lines 215-218: a non-empty `type` field of the entry replaces
the section key as type name. -/
def effectiveType (bundleType : String) (config : Config) : String :=
  if config.MustString "type" ≠ "" then config.MustString "type" else bundleType

/-- What a run of `registerIfHit` does with the factories: a call of
`re.findFactory(typeName)`, and a call `factory()` of the factory found under
`typeName` with the component it returned. A factory is a Go function and its
call is an effect; the events keep the calls observable. -/
inductive FactoryEvent where
  | lookedUp (typeName : String)
  | invoked (typeName : String) (product : Bundle)
deriving DecidableEq, Repr

/-- A run with the factory events it made, in order, and its outcome. -/
structure Traced (α : Type) where
  events : List FactoryEvent
  outcome : Outcome α

/-- register.go lines 204-312: the closure handed to `configs.ForEach`, run
on one entry of the section, with the calls of `findFactory` (line 220) and
of the factory (line 225) recorded. -/
def Registration.registerEntryTraced (re : Registration) (initFunc : InitFunc)
    (bundleType : String) (item : Value) : Traced Unit :=
  match item with
  | .map asMap =>
    let config : Config := asMap
    if config.MustBool "disable" then
      { events := [], outcome := .ok () re }
    else
      let bundleType := effectiveType bundleType config
      match re.findFactory bundleType with
      | (_, false) =>
        { events := [.lookedUp bundleType],
          outcome := .fatal (.factoryNotRegistered bundleType) re }
      | (none, true) =>
        { events := [.lookedUp bundleType], outcome := .fatal .nilFactory re }
      | (some factory, true) =>
        { events := [.lookedUp bundleType, .invoked bundleType (factory ())],
          outcome := re.registerBundle initFunc bundleType config (factory ()) }
  | _ => { events := [], outcome := .fatal (.configNotMap bundleType) re }

/-- The closure of `registerIfHit` run on one entry: its outcome. -/
def Registration.registerEntry (re : Registration) (initFunc : InitFunc)
    (bundleType : String) (item : Value) : Outcome Unit :=
  (re.registerEntryTraced initFunc bundleType item).outcome

/-- Go `configs.ForEach(closure)`: the closure runs on the entries in turn; a
panic ends the iteration. -/
def Registration.forEachEntryTraced (re : Registration) (initFunc : InitFunc) :
    List (String × Value) → Traced Unit
  | [] => { events := [], outcome := .ok () re }
  | (bundleType, item) :: rest =>
    match re.registerEntryTraced initFunc bundleType item with
    | { events := events, outcome := .fatal why re1 } =>
      { events := events, outcome := .fatal why re1 }
    | { events := events, outcome := .ok _ re1 } =>
      { events := events ++ (re1.forEachEntryTraced initFunc rest).events,
        outcome := (re1.forEachEntryTraced initFunc rest).outcome }

/-- Go `configs.ForEach(closure)`: its outcome. -/
def Registration.forEachEntry (re : Registration) (initFunc : InitFunc)
    (entries : List (String × Value)) : Outcome Unit :=
  (re.forEachEntryTraced initFunc entries).outcome

/-- register.go `Registration.registerIfHit`, with the factory events of the run. -/
def Registration.registerIfHitTraced (re : Registration) (configs : Config)
    (initFunc : InitFunc) : Traced Bool :=
  if configs.IsEmpty then
    { events := [], outcome := .ok false re }
  else
    match re.forEachEntryTraced initFunc configs with
    | { events := events, outcome := .fatal why re1 } =>
      { events := events, outcome := .fatal why re1 }
    | { events := events, outcome := .ok _ re1 } =>
      { events := events, outcome := .ok true re1 }

/-- register.go `Registration.registerIfHit`: its outcome. -/
def Registration.registerIfHit (re : Registration) (configs : Config) (initFunc : InitFunc) :
    Outcome Bool :=
  (re.registerIfHitTraced configs initFunc).outcome

/-! ## Serve loops: common environment

A serve loop talks to the network and to a cancellation context. The
embedding runs a loop against a script: the list of what each iteration
observes, in order (whether `Done()` is closed at the `select`, what
`SetReadDeadline` returns, what the read or accept returns). A run that uses
up its script without reaching a `return` is still inside the loop. -/

/-- A Go `error` value, as far as the serve loops inspect it: whether the type
assertion `err.(net.Error)` succeeds and what `Timeout()` and `Temporary()`
answer. -/
structure GoError where
  text : String
  isNetError : Bool
  timeout : Bool
  temporary : Bool
deriving DecidableEq, Repr

/-- Go `errors.New(text)`. -/
def GoError.New (text : String) : GoError :=
  { text := text, isNetError := false, timeout := false, temporary := false }

/-- Go `errors.WithMessage(err, message)`: a wrapper, not a `net.Error`. -/
def GoError.WithMessage (err : GoError) (message : String) : GoError :=
  { text := message ++ ": " ++ err.text, isNetError := false, timeout := false,
    temporary := false }

/-- How a run of a serve loop stands at the end of its script. -/
inductive Exit where
  | running
  | returned (err : Option GoError)
  | panicked
deriving DecidableEq, Repr

/-- A frame: the bytes handed to the serve handler. -/
abbrev Frame := List Nat

/-- Modelled from the spec: `gecko.NewFramePacket` and `gecko.NewPackFrame`,
"a read producing n>0 bytes is wrapped into a Frame"; the frame holds the
bytes of the slice it is built from. -/
def NewFramePacket (bytes : List Nat) : Frame := bytes

/-- The serve handler `func(bytes, ctx, deliverer) error`, as the error it
returns for a frame; `none` is Go `nil`. -/
abbrev ServeHandler := Frame → Option GoError

/-- What `conn.Read(buffer)` or `conn.ReadFrom(buffer)` returned: the bytes it
stored at the front of the buffer (their number is `n`) and the error. -/
structure ReadOutcome where
  bytes : List Nat
  err : Option GoError
deriving DecidableEq, Repr

/-- What one iteration of a read loop observes. -/
structure ConnTurn where
  done : Bool
  deadline : Option GoError
  read : ReadOutcome
deriving DecidableEq, Repr

/-- The buffer after a read stored `bytes` at its front; a read stores at
most `len(buffer)` bytes. -/
def storeFront (buffer : List Nat) (bytes : List Nat) : List Nat :=
  bytes ++ buffer.drop bytes.length

/-- What a read loop did: the frames the handler was invoked with, in order,
the number of reads made, and how the run ended (`returned none` is the
return of Go `nil`). -/
structure ConnRun where
  handled : List Frame
  reads : Nat
  result : Exit
deriving DecidableEq, Repr

/-- One more read was made before the rest of the run. -/
def ConnRun.afterRead (r : ConnRun) : ConnRun := { r with reads := r.reads + 1 }

/-- The handler was invoked with `frame` before the rest of the run. -/
def ConnRun.afterFrame (r : ConnRun) (frame : Frame) : ConnRun :=
  { r with handled := frame :: r.handled }

/-! ## network/network_input_deivce.go -/

/-- The fields of `AbcNetworkInputDevice` the serve path reads. -/
structure AbcNetworkInputDevice where
  networkType : String
  networkAddress : String
  maxBufferSize : Nat
  serverServeHandler : Option ServeHandler
  topic : String

/-- network_input_deivce.go `isNetTempErr`. -/
def isNetTempErr (err : GoError) : Bool :=
  if err.isNetError then err.timeout || err.temporary else false

/-- network_input_deivce.go `receiveConn`, the `for` loop (lines 134-159) with
`buffer` as it stands at the head of the iteration. -/
def receiveConnLoop (handler : Option ServeHandler) (buffer : List Nat) : List ConnTurn → ConnRun
  | [] => { handled := [], reads := 0, result := .running }
  | turn :: rest =>
    if turn.done then
      { handled := [], reads := 0, result := .returned none }
    else
      match turn.deadline with
      | some err =>
        if !isNetTempErr err then
          { handled := [], reads := 0, result := .returned (some err) }
        else
          receiveConnLoop handler buffer rest
      | none =>
        let n := turn.read.bytes.length
        let buffer := storeFront buffer turn.read.bytes
        match turn.read.err with
        | some err =>
          if !isNetTempErr err then
            { handled := [], reads := 1, result := .returned (some err) }
          else
            (receiveConnLoop handler buffer rest).afterRead
        | none =>
          if n > 0 then
            let frame := NewFramePacket (buffer.take n)
            match handler with
            | none => { handled := [], reads := 1, result := .panicked }
            | some serve =>
              match serve frame with
              | some err => { handled := [frame], reads := 1, result := .returned (some err) }
              | none => ((receiveConnLoop handler buffer rest).afterFrame frame).afterRead
          else
            (receiveConnLoop handler buffer rest).afterRead

/-- network_input_deivce.go `receiveConn`; `make([]byte, d.maxBufferSize)` is a
buffer of zeros. Calling a nil `serverServeHandler` is a runtime panic. -/
def AbcNetworkInputDevice.receiveConn (d : AbcNetworkInputDevice) (turns : List ConnTurn) :
    ConnRun :=
  receiveConnLoop d.serverServeHandler (List.replicate d.maxBufferSize 0) turns

/-- What `serverConn.Accept()` returned: a client connection, given by the
script its reader will run against, or an error. -/
inductive AcceptOutcome where
  | client (turns : List ConnTurn)
  | err (e : GoError)
deriving DecidableEq, Repr

/-- What one iteration of the accept loop observes. -/
structure ServeTurn where
  done : Bool
  accept : AcceptOutcome
deriving DecidableEq, Repr

/-- What the accept loop did: the calls of `serverConn.Close()`, the client
connections a reader task was started for, and how the run ended. -/
structure TcpRun where
  closes : Nat
  clients : List (List ConnTurn)
  result : Exit
deriving DecidableEq, Repr

/-- The listener was closed once more before the rest of the run. -/
def TcpRun.afterClose (r : TcpRun) : TcpRun := { r with closes := r.closes + 1 }

/-- A reader task was started for `c` before the rest of the run. -/
def TcpRun.afterClient (r : TcpRun) (c : List ConnTurn) : TcpRun :=
  { r with clients := c :: r.clients }

/-- network_input_deivce.go `tcpServe`, the `for` loop (lines 93-115). In the
`Done()` case the listener is closed and `break` leaves the `select`
statement, after which the `for` statement starts its next iteration. -/
def tcpServeLoop : List ServeTurn → TcpRun
  | [] => { closes := 0, clients := [], result := .running }
  | turn :: rest =>
    if turn.done then
      (tcpServeLoop rest).afterClose
    else
      match turn.accept with
      | .err e =>
        if !isNetTempErr e then
          { closes := 0, clients := [], result := .returned (some e) }
        else
          tcpServeLoop rest
      | .client c => (tcpServeLoop rest).afterClient c

/-- network_input_deivce.go `tcpServe`; `listen` is the error of `net.Listen`. -/
def AbcNetworkInputDevice.tcpServe (_d : AbcNetworkInputDevice) (listen : Option GoError)
    (turns : List ServeTurn) : TcpRun :=
  match listen with
  | some err =>
    { closes := 0, clients := [], result := .returned (some (err.WithMessage "TCP连接监听失败")) }
  | none => tcpServeLoop turns

/-- network_input_deivce.go `udpServe`; `resolve` and `listen` are the errors
of `net.ResolveUDPAddr` and `net.ListenUDP`. -/
def AbcNetworkInputDevice.udpServe (d : AbcNetworkInputDevice) (resolve listen : Option GoError)
    (turns : List ConnTurn) : ConnRun :=
  match resolve with
  | some _ =>
    { handled := [], reads := 0,
      result := .returned (some (GoError.New ("无法创建UDP地址: " ++ d.networkAddress))) }
  | none =>
    match listen with
    | some err =>
      { handled := [], reads := 0, result := .returned (some (err.WithMessage "UDP连接监听失败")) }
    | none => d.receiveConn turns

/-- The network as one call of `Serve` meets it. -/
structure ServeEnv where
  resolve : Option GoError
  listen : Option GoError
  packets : List ConnTurn
  accepts : List ServeTurn

/-- network_input_deivce.go `Serve`: how the call ends. -/
def AbcNetworkInputDevice.Serve (d : AbcNetworkInputDevice) (env : ServeEnv) : Exit :=
  if d.serverServeHandler.isNone then
    .returned (some (GoError.New "未设置onServeHandler接口"))
  else if "udp" = d.networkType then
    (d.udpServe env.resolve env.listen env.packets).result
  else if "tcp" = d.networkType then
    (d.tcpServe env.listen env.accepts).result
  else
    .returned (some (GoError.New ("未识别的网络连接模式: " ++ d.networkType)))

/-! ## udp/udp_reader_deivce.go -/

/-- The fields of `AbcUdpReaderDevice` the serve path reads. -/
structure AbcUdpReaderDevice where
  maxBufferSize : Nat
  onServeHandler : Option ServeHandler

/-- udp_reader_deivce.go `Serve`, the `for` loop (lines 59-77). -/
def udpReaderLoop (handler : ServeHandler) (buffer : List Nat) : List ConnTurn → ConnRun
  | [] => { handled := [], reads := 0, result := .running }
  | turn :: rest =>
    if turn.done then
      { handled := [], reads := 0, result := .returned none }
    else
      match turn.deadline with
      | some err => { handled := [], reads := 0, result := .returned (some err) }
      | none =>
        let n := turn.read.bytes.length
        let buffer := storeFront buffer turn.read.bytes
        match turn.read.err with
        | some err => { handled := [], reads := 1, result := .returned (some err) }
        | none =>
          let frame := NewFramePacket (buffer.take n)
          match handler frame with
          | some err => { handled := [frame], reads := 1, result := .returned (some err) }
          | none => ((udpReaderLoop handler buffer rest).afterFrame frame).afterRead

/-- udp_reader_deivce.go `Serve`; `listen` is the error of `net.ListenPacket`. -/
def AbcUdpReaderDevice.Serve (ur : AbcUdpReaderDevice) (listen : Option GoError)
    (turns : List ConnTurn) : ConnRun :=
  match ur.onServeHandler with
  | none =>
    { handled := [], reads := 0, result := .returned (some (GoError.New "未设置onServeHandler接口")) }
  | some handler =>
    match listen with
    | some cErr => { handled := [], reads := 0, result := .returned (some cErr) }
    | none => udpReaderLoop handler (List.replicate ur.maxBufferSize 0) turns

/-! ## Device registry: sequences of calls -/

/-- A call of `AddInputDevice` or `AddOutputDevice`. -/
inductive DeviceCall where
  | input (d : InputDevice)
  | output (d : OutputDevice)
deriving DecidableEq, Repr

/-- The calls made one after the other; a panic ends the sequence. -/
def Registration.addDevices (re : Registration) : List DeviceCall → Outcome Unit
  | [] => .ok () re
  | .input d :: rest =>
    match re.AddInputDevice d with
    | .fatal why re1 => .fatal why re1
    | .ok _ re1 => re1.addDevices rest
  | .output d :: rest =>
    match re.AddOutputDevice d with
    | .fatal why re1 => .fatal why re1
    | .ok _ re1 => re1.addDevices rest

/-- The invariant of the device registry: no UUID is a key of both mappings,
and the UUIDs of each list are, up to order, the keys of the mapping of the
same kind (which are free of duplicates), so list and mapping have the same
size. -/
def Registration.DevicesConsistent (re : Registration) : Prop :=
  (∀ uuid, uuid ∈ re.inputsMap → uuid ∉ re.outputsMap) ∧
  (re.inputs.map (fun d => d.GetAddress.UUID)).Perm re.inputsMap.keys ∧
  (re.outputs.map (fun d => d.GetAddress.UUID)).Perm re.outputsMap.keys ∧
  re.inputs.length = re.inputsMap.keys.length ∧
  re.outputs.length = re.outputsMap.keys.length

/-! ## Serve loops: scripts of reads -/

/-- The iteration in which `Done()` is still open, the read deadline is set
and the read returns `r`. -/
def ConnTurn.reading (r : ReadOutcome) : ConnTurn := { done := false, deadline := none, read := r }

/-- The read failed with an error that `isNetTempErr` does not classify as
transient. -/
def ReadOutcome.failsFatally (r : ReadOutcome) : Bool :=
  match r.err with
  | some e => !isNetTempErr e
  | none => false

/-- The read succeeded with `n > 0` bytes. -/
def ReadOutcome.hasData (r : ReadOutcome) : Bool :=
  r.err.isNone && decide (0 < r.bytes.length)

/-- Spec side of the ordering property: the frames the handler is to see for
a sequence of reads, the bytes of each successful read with `n > 0` in the
order of the reads. -/
def expectedFrames (reads : List ReadOutcome) : List Frame :=
  (reads.filter ReadOutcome.hasData).map ReadOutcome.bytes

/-- A read that ran into the read deadline: a `net.Error` with `Timeout()`. -/
def readTimeout : GoError :=
  { text := "i/o timeout", isNetError := true, timeout := true, temporary := true }

/-- A read on a connection the peer has reset: not a transient error. -/
def connReset : GoError :=
  { text := "connection reset by peer", isNetError := true, timeout := false,
    temporary := false }

/-- A TCP device with a handler that accepts every frame. -/
def tcpDevice : AbcNetworkInputDevice where
  networkType := "tcp"
  networkAddress := "127.0.0.1:0"
  maxBufferSize := 4
  serverServeHandler := some (fun _ => none)
  topic := "card.read"

/-- Reads on one connection: three frames, with an empty read and a read
that ran into the deadline in between. -/
def sampleReads : List ReadOutcome :=
  [⟨[1], none⟩, ⟨[], none⟩, ⟨[2, 3], none⟩, ⟨[], some readTimeout⟩, ⟨[4], none⟩]

/-- A read on a connection the peer has reset. -/
def resetRead : ReadOutcome := { bytes := [], err := some connReset }

/-! ## Sample components and configurations -/

/-- A component with no capability and empty fields. -/
def blankBundle : Bundle where
  className := "blank"
  isDriver := false
  isInterceptor := false
  isVirtualDevice := false
  isInputDevice := false
  isOutputDevice := false
  isPlugin := false
  isNeedTopicFilter := false
  isInitialize := false
  name := ""
  priority := 0
  address := { UUID := "", Group := "", Private := "" }
  encoder := none
  decoder := none
  topic := ""
  topics := []

/-- An input device with UUID `u1`. -/
def cardReader : InputDevice :=
  { blankBundle with
    className := "CardReader", isVirtualDevice := true, isInputDevice := true,
    address := { UUID := "u1", Group := "gate", Private := "1" } }

/-- An output device with UUID `u2`. -/
def doorLock : OutputDevice :=
  { blankBundle with
    className := "DoorLock", isVirtualDevice := true, isOutputDevice := true,
    address := { UUID := "u2", Group := "gate", Private := "2" } }

/-- An output device with the UUID of `cardReader`. -/
def doorLockClash : OutputDevice :=
  { doorLock with address := { UUID := "u1", Group := "gate", Private := "3" } }

/-- A hook to register. -/
def sampleHook : HookFunc := { label := "flush" }

/-- A product registered as plugin, labelled by its class name. -/
def pluginNamed (className : String) : Bundle :=
  { blankBundle with className := className, isPlugin := true }

/-- The fresh registry after factory `A` and then factory `B` were registered
under the type name `greeter`. -/
def greeterRegistry : Registration :=
  ((prepare.AddBundleFactory "greeter" (fun _ => pluginNamed "A")).state.AddBundleFactory
    "greeter" (fun _ => pluginNamed "B")).state

/-- The fresh registry after the factory of `pluginNamed "Relay"` was
registered under `relay` and the factory of `pluginNamed "Gpio"` under `gpio`. -/
def relayRegistry : Registration :=
  ((prepare.AddBundleFactory "relay" (fun _ => pluginNamed "Relay")).state.AddBundleFactory
    "gpio" (fun _ => pluginNamed "Gpio")).state

/-- A codec product that satisfies both `Decoder` and `Encoder`. -/
def duplexCodec : Codec := { className := "Duplex", isDecoder := true, isEncoder := true }

/-- A codec product that satisfies neither `Decoder` nor `Encoder`. -/
def noCodec : Codec := { className := "Nothing", isDecoder := false, isEncoder := false }

/-- A product that satisfies both `Driver` and `VirtualDevice`. -/
def gateDriver : Bundle :=
  { blankBundle with className := "GateDriver", isDriver := true, isVirtualDevice := true }

/-- A registry whose only factory builds `gateDriver` under the name `gate`. -/
def gateRegistry : Registration :=
  (prepare.AddBundleFactory "gate" (fun _ => gateDriver)).state

/-- A device section without `uuid`, `group` and `private`. -/
def gateSection : Config := [("name", .str "north"), ("topics", .strs ["door/+/open"])]

/-- An input device product without address. -/
def turnstile : Bundle :=
  { blankBundle with className := "Turnstile", isVirtualDevice := true, isInputDevice := true }

/-- A registry whose only factory builds `turnstile` under the name `turnstile`. -/
def turnstileRegistry : Registration :=
  (prepare.AddBundleFactory "turnstile" (fun _ => turnstile)).state

/-- A device section that omits `uuid`. -/
def turnstileSection : Config :=
  [("name", .str "east"), ("group", .str "gate"), ("private", .str "7"),
   ("topic", .str "card.read")]

/-! ## Lemmas on maps -/

theorem GoMap.has_iff_mem {V : Type} (m : GoMap V) (k : String) : m.has k = true ↔ k ∈ m := by
  unfold GoMap.has
  exact AList.lookup_isSome

theorem GoMap.has_eq_false_iff {V : Type} (m : GoMap V) (k : String) :
    m.has k = false ↔ k ∉ m := by
  rw [← GoMap.has_iff_mem]
  cases m.has k <;> simp

theorem GoMap.keys_insert_fresh {V : Type} (m : GoMap V) (k : String) (v : V) (h : k ∉ m) :
    (m.insert k v).keys = k :: m.keys := by
  rw [AList.keys_insert]
  congr 1
  exact List.erase_of_not_mem (fun hk => h (AList.mem_keys.mpr hk))

theorem GoMap.mem_insert_iff {V : Type} (m : GoMap V) (k k' : String) (v : V) :
    k' ∈ m.insert k v ↔ k' = k ∨ k' ∈ m :=
  AList.mem_insert m

/-! ## Lemmas on the device registry -/

theorem ensureUniqueUUID_eq (re : Registration) (uuid : String) :
    (uuid ∈ re.inputsMap ∧ re.ensureUniqueUUID uuid = .fatal (.uuidDuplicateInput uuid) re) ∨
    (uuid ∉ re.inputsMap ∧ uuid ∈ re.outputsMap ∧
      re.ensureUniqueUUID uuid = .fatal (.uuidDuplicateOutput uuid) re) ∨
    (uuid ∉ re.inputsMap ∧ uuid ∉ re.outputsMap ∧ re.ensureUniqueUUID uuid = .ok uuid re) := by
  unfold Registration.ensureUniqueUUID
  by_cases h1 : uuid ∈ re.inputsMap
  · left
    exact ⟨h1, by simp [(GoMap.has_iff_mem _ _).mpr h1]⟩
  · right
    by_cases h2 : uuid ∈ re.outputsMap
    · left
      exact ⟨h1, h2, by simp [(GoMap.has_eq_false_iff _ _).mpr h1, (GoMap.has_iff_mem _ _).mpr h2]⟩
    · right
      exact ⟨h1, h2, by
        simp [(GoMap.has_eq_false_iff _ _).mpr h1, (GoMap.has_eq_false_iff _ _).mpr h2]⟩

theorem AddInputDevice_taken (re : Registration) (d : InputDevice)
    (h : d.GetAddress.UUID ∈ re.inputsMap ∨ d.GetAddress.UUID ∈ re.outputsMap) :
    ∃ why, re.AddInputDevice d = .fatal why re := by
  unfold Registration.AddInputDevice
  rcases ensureUniqueUUID_eq re d.GetAddress.UUID with ⟨_, e⟩ | ⟨_, _, e⟩ | ⟨h1, h2, _⟩
  · exact ⟨_, by rw [e]⟩
  · exact ⟨_, by rw [e]⟩
  · rcases h with h | h
    · exact absurd h h1
    · exact absurd h h2

theorem AddInputDevice_fresh (re : Registration) (d : InputDevice)
    (h1 : d.GetAddress.UUID ∉ re.inputsMap) (h2 : d.GetAddress.UUID ∉ re.outputsMap) :
    re.AddInputDevice d = .ok () { re with
      inputsMap := re.inputsMap.insert d.GetAddress.UUID d
      inputs := re.inputs ++ [d] } := by
  unfold Registration.AddInputDevice
  rcases ensureUniqueUUID_eq re d.GetAddress.UUID with ⟨h, _⟩ | ⟨_, h, _⟩ | ⟨_, _, e⟩
  · exact absurd h h1
  · exact absurd h h2
  · rw [e]

theorem AddOutputDevice_taken (re : Registration) (d : OutputDevice)
    (h : d.GetAddress.UUID ∈ re.inputsMap ∨ d.GetAddress.UUID ∈ re.outputsMap) :
    ∃ why, re.AddOutputDevice d = .fatal why re := by
  unfold Registration.AddOutputDevice
  rcases ensureUniqueUUID_eq re d.GetAddress.UUID with ⟨_, e⟩ | ⟨_, _, e⟩ | ⟨h1, h2, _⟩
  · exact ⟨_, by rw [e]⟩
  · exact ⟨_, by rw [e]⟩
  · rcases h with h | h
    · exact absurd h h1
    · exact absurd h h2

theorem AddOutputDevice_fresh (re : Registration) (d : OutputDevice)
    (h1 : d.GetAddress.UUID ∉ re.inputsMap) (h2 : d.GetAddress.UUID ∉ re.outputsMap) :
    re.AddOutputDevice d = .ok () { re with
      outputsMap := re.outputsMap.insert d.GetAddress.UUID d
      outputs := re.outputs ++ [d] } := by
  unfold Registration.AddOutputDevice
  rcases ensureUniqueUUID_eq re d.GetAddress.UUID with ⟨h, _⟩ | ⟨_, h, _⟩ | ⟨_, _, e⟩
  · exact absurd h h1
  · exact absurd h h2
  · rw [e]

theorem AddInputDevice_ok_inv (re re1 : Registration) (d : InputDevice) (u : Unit)
    (h : re.AddInputDevice d = .ok u re1) :
    d.GetAddress.UUID ∉ re.inputsMap ∧ d.GetAddress.UUID ∉ re.outputsMap ∧
    re1 = { re with
      inputsMap := re.inputsMap.insert d.GetAddress.UUID d
      inputs := re.inputs ++ [d] } := by
  by_cases hk : d.GetAddress.UUID ∈ re.inputsMap ∨ d.GetAddress.UUID ∈ re.outputsMap
  · obtain ⟨why, e⟩ := AddInputDevice_taken re d hk
    rw [e] at h
    cases h
  · have h1 : d.GetAddress.UUID ∉ re.inputsMap := fun hm => hk (Or.inl hm)
    have h2 : d.GetAddress.UUID ∉ re.outputsMap := fun hm => hk (Or.inr hm)
    rw [AddInputDevice_fresh re d h1 h2] at h
    cases h
    exact ⟨h1, h2, rfl⟩

theorem AddOutputDevice_ok_inv (re re1 : Registration) (d : OutputDevice) (u : Unit)
    (h : re.AddOutputDevice d = .ok u re1) :
    d.GetAddress.UUID ∉ re.inputsMap ∧ d.GetAddress.UUID ∉ re.outputsMap ∧
    re1 = { re with
      outputsMap := re.outputsMap.insert d.GetAddress.UUID d
      outputs := re.outputs ++ [d] } := by
  by_cases hk : d.GetAddress.UUID ∈ re.inputsMap ∨ d.GetAddress.UUID ∈ re.outputsMap
  · obtain ⟨why, e⟩ := AddOutputDevice_taken re d hk
    rw [e] at h
    cases h
  · have h1 : d.GetAddress.UUID ∉ re.inputsMap := fun hm => hk (Or.inl hm)
    have h2 : d.GetAddress.UUID ∉ re.outputsMap := fun hm => hk (Or.inr hm)
    rw [AddOutputDevice_fresh re d h1 h2] at h
    cases h
    exact ⟨h1, h2, rfl⟩

theorem perm_snoc_cons (xs ks : List String) (k : String) (h : xs.Perm ks) :
    (xs ++ [k]).Perm (k :: ks) :=
  (List.perm_append_comm.trans (List.Perm.refl (k :: xs))).trans (List.Perm.cons k h)

theorem DevicesConsistent_prepare : prepare.DevicesConsistent := by
  refine ⟨?_, ?_, ?_, rfl, rfl⟩
  · intro uuid h
    exact absurd h (AList.not_mem_empty uuid)
  · exact List.Perm.refl _
  · exact List.Perm.refl _

theorem DevicesConsistent_AddInputDevice (re re1 : Registration) (d : InputDevice) (u : Unit)
    (inv : re.DevicesConsistent) (h : re.AddInputDevice d = .ok u re1) :
    re1.DevicesConsistent := by
  obtain ⟨h1, h2, rfl⟩ := AddInputDevice_ok_inv re re1 d u h
  obtain ⟨disj, pin, pout, lin, lout⟩ := inv
  refine ⟨?_, ?_, pout, ?_, lout⟩
  · intro uuid hm
    rcases (GoMap.mem_insert_iff _ _ _ _).mp hm with rfl | hm
    · exact h2
    · exact disj uuid hm
  · show ((re.inputs ++ [d]).map _).Perm (AList.insert _ d re.inputsMap).keys
    rw [GoMap.keys_insert_fresh _ _ _ h1, List.map_append]
    exact perm_snoc_cons _ _ _ pin
  · show (re.inputs ++ [d]).length = (AList.insert _ d re.inputsMap).keys.length
    rw [GoMap.keys_insert_fresh _ _ _ h1]
    simp [lin]

theorem DevicesConsistent_AddOutputDevice (re re1 : Registration) (d : OutputDevice) (u : Unit)
    (inv : re.DevicesConsistent) (h : re.AddOutputDevice d = .ok u re1) :
    re1.DevicesConsistent := by
  obtain ⟨h1, h2, rfl⟩ := AddOutputDevice_ok_inv re re1 d u h
  obtain ⟨disj, pin, pout, lin, lout⟩ := inv
  refine ⟨?_, pin, ?_, lin, ?_⟩
  · intro uuid hm hm2
    rcases (GoMap.mem_insert_iff _ _ _ _).mp hm2 with rfl | hm2
    · exact h1 hm
    · exact disj uuid hm hm2
  · show ((re.outputs ++ [d]).map _).Perm (AList.insert _ d re.outputsMap).keys
    rw [GoMap.keys_insert_fresh _ _ _ h2, List.map_append]
    exact perm_snoc_cons _ _ _ pout
  · show (re.outputs ++ [d]).length = (AList.insert _ d re.outputsMap).keys.length
    rw [GoMap.keys_insert_fresh _ _ _ h2]
    simp [lout]

theorem DevicesConsistent_addDevices (calls : List DeviceCall) :
    ∀ (re re1 : Registration) (u : Unit), re.DevicesConsistent →
      re.addDevices calls = .ok u re1 → re1.DevicesConsistent := by
  induction calls with
  | nil =>
    intro re re1 u inv h
    simp only [Registration.addDevices] at h
    cases h
    exact inv
  | cons c rest ih =>
    intro re re1 u inv h
    cases c with
    | input d =>
      simp only [Registration.addDevices] at h
      cases hd : re.AddInputDevice d with
      | fatal why re2 => rw [hd] at h; cases h
      | ok u2 re2 =>
        rw [hd] at h
        exact ih re2 re1 u (DevicesConsistent_AddInputDevice re re2 d u2 inv hd) h
    | output d =>
      simp only [Registration.addDevices] at h
      cases hd : re.AddOutputDevice d with
      | fatal why re2 => rw [hd] at h; cases h
      | ok u2 re2 =>
        rw [hd] at h
        exact ih re2 re1 u (DevicesConsistent_AddOutputDevice re re2 d u2 inv hd) h

/-! ## Theorems: device registry -/

/-- C1: `AddInputDevice(d)` and `AddOutputDevice(d)` panic exactly when the
UUID of `d` is already a key of the input mapping or of the output mapping; a
panicking call leaves the registry (both mappings, both lists) as it was; a
call that returns has filed `d` under its UUID in the mapping of its own kind
and appended it at the back of the list of that kind, leaving the mapping and
list of the other kind as they were. -/
theorem addDevice_fatal_iff_uuid_taken (re : Registration) (d : Bundle) :
    ((re.AddInputDevice d).isFatal = true ↔
      (d.GetAddress.UUID ∈ re.inputsMap ∨ d.GetAddress.UUID ∈ re.outputsMap)) ∧
    ((re.AddOutputDevice d).isFatal = true ↔
      (d.GetAddress.UUID ∈ re.inputsMap ∨ d.GetAddress.UUID ∈ re.outputsMap)) ∧
    ((re.AddInputDevice d).isFatal = true → (re.AddInputDevice d).state = re) ∧
    ((re.AddOutputDevice d).isFatal = true → (re.AddOutputDevice d).state = re) ∧
    ((re.AddInputDevice d).isFatal = false →
      (re.AddInputDevice d).state.inputsMap.lookup d.GetAddress.UUID = some d ∧
      (re.AddInputDevice d).state.inputs = re.inputs ++ [d] ∧
      (re.AddInputDevice d).state.outputsMap = re.outputsMap ∧
      (re.AddInputDevice d).state.outputs = re.outputs) ∧
    ((re.AddOutputDevice d).isFatal = false →
      (re.AddOutputDevice d).state.outputsMap.lookup d.GetAddress.UUID = some d ∧
      (re.AddOutputDevice d).state.outputs = re.outputs ++ [d] ∧
      (re.AddOutputDevice d).state.inputsMap = re.inputsMap ∧
      (re.AddOutputDevice d).state.inputs = re.inputs) := by
  by_cases hk : d.GetAddress.UUID ∈ re.inputsMap ∨ d.GetAddress.UUID ∈ re.outputsMap
  · obtain ⟨w1, e1⟩ := AddInputDevice_taken re d hk
    obtain ⟨w2, e2⟩ := AddOutputDevice_taken re d hk
    rw [e1, e2]
    simp [Outcome.isFatal, Outcome.state, hk]
  · have h1 : d.GetAddress.UUID ∉ re.inputsMap := fun hm => hk (Or.inl hm)
    have h2 : d.GetAddress.UUID ∉ re.outputsMap := fun hm => hk (Or.inr hm)
    rw [AddInputDevice_fresh re d h1 h2, AddOutputDevice_fresh re d h1 h2]
    simp [Outcome.isFatal, Outcome.state, h1, h2, AList.lookup_insert]

/-- Witness for C1: on the fresh registry `cardReader` is accepted and filed;
once it is registered, an output device with the same UUID is refused and the
registry stays as it was. -/
theorem addDevice_fatal_iff_uuid_taken_witness :
    ((prepare.AddInputDevice cardReader).isFatal = false ∧
      (prepare.AddInputDevice cardReader).state.inputsMap.lookup "u1" = some cardReader ∧
      (prepare.AddInputDevice cardReader).state.inputs = [cardReader]) ∧
    (((prepare.AddInputDevice cardReader).state.AddOutputDevice doorLockClash).isFatal = true ∧
      ((prepare.AddInputDevice cardReader).state.AddOutputDevice doorLockClash).state =
        (prepare.AddInputDevice cardReader).state) :=
  ⟨⟨by decide,
    ((addDevice_fatal_iff_uuid_taken prepare cardReader).2.2.2.2.1 (by decide)).1,
    ((addDevice_fatal_iff_uuid_taken prepare cardReader).2.2.2.2.1 (by decide)).2.1⟩,
   ⟨by decide,
    (addDevice_fatal_iff_uuid_taken (prepare.AddInputDevice cardReader).state
      doorLockClash).2.2.2.1 (by decide)⟩⟩

/-- C10: in every registry reached from `prepare()` by a sequence of
`AddInputDevice` and `AddOutputDevice` calls none of which panics, no UUID is
a key of both mappings, the UUIDs of the input list are a rearrangement of
the keys of the input mapping, likewise for outputs, and so each list has as
many elements as its mapping has keys. -/
theorem reachable_devices_consistent (calls : List DeviceCall) (re : Registration)
    (h : prepare.addDevices calls = .ok () re) :
    (∀ uuid, uuid ∈ re.inputsMap → uuid ∉ re.outputsMap) ∧
    (re.inputs.map (fun d => d.GetAddress.UUID)).Perm re.inputsMap.keys ∧
    (re.outputs.map (fun d => d.GetAddress.UUID)).Perm re.outputsMap.keys ∧
    re.inputs.length = re.inputsMap.keys.length ∧
    re.outputs.length = re.outputsMap.keys.length :=
  DevicesConsistent_addDevices calls prepare re () DevicesConsistent_prepare h

/-- Witness for C10: the registry after registering `cardReader` and then
`doorLock`. -/
theorem reachable_devices_consistent_witness :
    prepare.addDevices [.input cardReader, .output doorLock] =
      .ok () (prepare.addDevices [.input cardReader, .output doorLock]).state ∧
    (prepare.addDevices [.input cardReader, .output doorLock]).state.inputs.length = 1 ∧
    (prepare.addDevices [.input cardReader, .output doorLock]).state.outputs.length =
      (prepare.addDevices [.input cardReader, .output doorLock]).state.outputsMap.keys.length :=
  ⟨by rfl, by decide,
    (reachable_devices_consistent [.input cardReader, .output doorLock]
      (prepare.addDevices [.input cardReader, .output doorLock]).state (by rfl)).2.2.2.2⟩

/-! ## Theorems: hooks, factories, codecs -/

/-- C7: what the four hook registrations do in the code.
`AddStartBeforeHook`, `AddStartAfterHook` and `AddStopBeforeHook` append the
hook at the back of their own list and leave the other three lists as they
were. `AddStopAfterHook(h)` appends `h` at the back of the start-after list
and leaves the stop-after list as it was, so that on the fresh registry the
stop-after list is still empty after the call. -/
theorem hooks_own_list_except_stopAfter (re : Registration) (h : HookFunc) :
    (re.AddStartBeforeHook h = .ok () { re with startBeforeHooks := re.startBeforeHooks ++ [h] }) ∧
    (re.AddStartAfterHook h = .ok () { re with startAfterHooks := re.startAfterHooks ++ [h] }) ∧
    (re.AddStopBeforeHook h = .ok () { re with stopBeforeHooks := re.stopBeforeHooks ++ [h] }) ∧
    (re.AddStopAfterHook h).state.stopAfterHooks = re.stopAfterHooks ∧
    (re.AddStopAfterHook h).state.startAfterHooks = re.startAfterHooks ++ [h] ∧
    (prepare.AddStopAfterHook sampleHook).state.stopAfterHooks = [] ∧
    (prepare.AddStopAfterHook sampleHook).state.startAfterHooks = [sampleHook] :=
  ⟨rfl, rfl, rfl, rfl, rfl, rfl, rfl⟩

theorem findFactory_of_lookup_some (re : Registration) (t : String) (f : BundleFactory)
    (h : re.factories.lookup t = some f) : re.findFactory t = (some f, true) := by
  simp [Registration.findFactory, h]

theorem registerEntryTraced_factory (re : Registration) (initFunc : InitFunc) (k : String)
    (cfg : Config) (f : BundleFactory) (h : cfg.MustBool "disable" = false)
    (hf : re.factories.lookup (effectiveType k cfg) = some f) :
    re.registerEntryTraced initFunc k (.map cfg) =
      { events := [.lookedUp (effectiveType k cfg), .invoked (effectiveType k cfg) (f ())],
        outcome := re.registerBundle initFunc (effectiveType k cfg) cfg (f ()) } := by
  simp [Registration.registerEntryTraced, h, findFactory_of_lookup_some re _ f hf]

theorem registerEntry_factory (re : Registration) (initFunc : InitFunc) (k : String)
    (cfg : Config) (f : BundleFactory) (h : cfg.MustBool "disable" = false)
    (hf : re.factories.lookup (effectiveType k cfg) = some f) :
    re.registerEntry initFunc k (.map cfg) =
      re.registerBundle initFunc (effectiveType k cfg) cfg (f ()) := by
  simp [Registration.registerEntry, registerEntryTraced_factory re initFunc k cfg f h hf]

theorem forEachEntryTraced_cons_ok (re re1 : Registration) (initFunc : InitFunc) (k : String)
    (item : Value) (rest : List (String × Value)) (events : List FactoryEvent) (u : Unit)
    (h : re.registerEntryTraced initFunc k item = { events := events, outcome := .ok u re1 }) :
    re.forEachEntryTraced initFunc ((k, item) :: rest) =
      { events := events ++ (re1.forEachEntryTraced initFunc rest).events,
        outcome := (re1.forEachEntryTraced initFunc rest).outcome } := by
  simp [Registration.forEachEntryTraced, h]

theorem forEachEntryTraced_cons_fatal (re re1 : Registration) (initFunc : InitFunc)
    (k : String) (item : Value) (rest : List (String × Value)) (events : List FactoryEvent)
    (why : Fatal)
    (h : re.registerEntryTraced initFunc k item =
      { events := events, outcome := .fatal why re1 }) :
    re.forEachEntryTraced initFunc ((k, item) :: rest) =
      { events := events, outcome := .fatal why re1 } := by
  simp [Registration.forEachEntryTraced, h]

theorem registerIfHitTraced_cons (re : Registration) (initFunc : InitFunc) (k : String)
    (item : Value) (rest : List (String × Value)) :
    re.registerIfHitTraced ((k, item) :: rest) initFunc =
      match re.forEachEntryTraced initFunc ((k, item) :: rest) with
      | { events := events, outcome := .fatal why re1 } =>
        { events := events, outcome := .fatal why re1 }
      | { events := events, outcome := .ok _ re1 } =>
        { events := events, outcome := .ok true re1 } := by
  simp [Registration.registerIfHitTraced, Config.IsEmpty]

theorem registerIfHit_cons (re : Registration) (initFunc : InitFunc) (k : String) (item : Value)
    (rest : List (String × Value)) :
    re.registerIfHit ((k, item) :: rest) initFunc =
      match re.registerEntry initFunc k item with
      | .fatal why re1 => .fatal why re1
      | .ok _ re1 =>
        match re1.forEachEntry initFunc rest with
        | .fatal why re2 => .fatal why re2
        | .ok _ re2 => .ok true re2 := by
  unfold Registration.registerIfHit Registration.registerEntry Registration.forEachEntry
  rw [registerIfHitTraced_cons]
  cases h : re.registerEntryTraced initFunc k item with
  | mk events outcome =>
    cases outcome with
    | fatal why re1 => rw [forEachEntryTraced_cons_fatal re re1 initFunc k item rest events why h]
    | ok u re1 =>
      rw [forEachEntryTraced_cons_ok re re1 initFunc k item rest events u h]
      cases hq : (re1.forEachEntryTraced initFunc rest).outcome <;> simp [hq]

/-- C2: after `AddBundleFactory(t, A)` followed by `AddBundleFactory(t, B)`
neither call has panicked, `findFactory(t)` returns `(B, true)`, the factory
found under every other type name is the one found before the two calls, and
an enabled configuration entry whose effective type name is `t` is registered
from the product of `B`. -/
theorem AddBundleFactory_overwrites (re : Registration) (t : String) (A B : BundleFactory) :
    (re.AddBundleFactory t A).isFatal = false ∧
    ((re.AddBundleFactory t A).state.AddBundleFactory t B).isFatal = false ∧
    ((re.AddBundleFactory t A).state.AddBundleFactory t B).state.findFactory t =
      (some B, true) ∧
    (∀ t1, t1 ≠ t →
      ((re.AddBundleFactory t A).state.AddBundleFactory t B).state.findFactory t1 =
        re.findFactory t1) ∧
    (∀ (initFunc : InitFunc) (k : String) (cfg : Config),
      cfg.MustBool "disable" = false → effectiveType k cfg = t →
      ((re.AddBundleFactory t A).state.AddBundleFactory t B).state.registerEntry initFunc k
          (.map cfg) =
        ((re.AddBundleFactory t A).state.AddBundleFactory t B).state.registerBundle initFunc t
          cfg (B ())) := by
  refine ⟨rfl, rfl, ?_, ?_, ?_⟩
  · exact findFactory_of_lookup_some _ _ _ (AList.lookup_insert _)
  · intro t1 h1
    simp only [Registration.findFactory, Registration.AddBundleFactory, Outcome.state]
    rw [AList.lookup_insert_ne h1, AList.lookup_insert_ne h1]
  · intro initFunc k cfg hd he
    have := registerEntry_factory
      ((re.AddBundleFactory t A).state.AddBundleFactory t B).state initFunc k cfg B hd
      (by rw [he]; exact AList.lookup_insert _)
    rw [he] at this
    exact this

/-- Witness for C2: with factory `A` and then factory `B` registered under
`"greeter"`, the enabled section `greeter: {}` is registered from the product
of `B`, which ends up as the only plugin. -/
theorem AddBundleFactory_overwrites_witness :
    greeterRegistry.findFactory "greeter" = (some (fun _ => pluginNamed "B"), true) ∧
    greeterRegistry.registerEntry (fun b _ => b) "greeter" (.map []) =
      greeterRegistry.registerBundle (fun b _ => b) "greeter" [] (pluginNamed "B") ∧
    (greeterRegistry.registerIfHit [("greeter", .map [])] (fun b _ => b)).state.plugins =
      [pluginNamed "B"] :=
  ⟨(AddBundleFactory_overwrites prepare "greeter" (fun _ => pluginNamed "A")
      (fun _ => pluginNamed "B")).2.2.1,
   (AddBundleFactory_overwrites prepare "greeter" (fun _ => pluginNamed "A")
      (fun _ => pluginNamed "B")).2.2.2.2 (fun b _ => b) "greeter" [] (by decide) (by decide),
   by rfl⟩

/-- C8 as stated fails: on the fresh registry, `AddCodecFactory` called with a
factory whose product satisfies both `Decoder` and `Encoder` does not panic
and registers the product in the decoder mapping. -/
theorem AddCodecFactory_ambiguous_not_fatal :
    duplexCodec.isDecoder = true ∧ duplexCodec.isEncoder = true ∧
    (prepare.AddCodecFactory "duplex" (fun _ => duplexCodec)).isFatal = false ∧
    (prepare.AddCodecFactory "duplex" (fun _ => duplexCodec)).state.decodersMap.lookup "duplex" =
      some duplexCodec := by
  decide

/-- C8 amended: a factory product that is neither `Decoder` nor `Encoder`
makes `AddCodecFactory` panic with the registry unchanged. A product that
satisfies both is handled by the first case of the type switch, as a Decoder:
the call is `AddDecoder(typeName, product)`, it panics exactly when
`typeName` is already a key of the decoder mapping, never changes the encoder
mapping, and when it returns the decoder mapping holds the product under
`typeName`. -/
theorem AddCodecFactory_classifies_decoder_first (re : Registration) (typeName : String)
    (factory : CodecFactory) :
    ((factory ()).isDecoder = false → (factory ()).isEncoder = false →
      re.AddCodecFactory typeName factory = .fatal (.unknownCodec typeName) re) ∧
    ((factory ()).isDecoder = true → (factory ()).isEncoder = true →
      re.AddCodecFactory typeName factory = re.AddDecoder typeName (factory ()) ∧
      ((re.AddCodecFactory typeName factory).isFatal = true ↔ typeName ∈ re.decodersMap) ∧
      (re.AddCodecFactory typeName factory).state.encodersMap = re.encodersMap ∧
      ((re.AddCodecFactory typeName factory).isFatal = false →
        (re.AddCodecFactory typeName factory).state.decodersMap.lookup typeName =
          some (factory ()))) := by
  constructor
  · intro hd he
    simp [Registration.AddCodecFactory, hd, he]
  · intro hd _
    have e : re.AddCodecFactory typeName factory = re.AddDecoder typeName (factory ()) := by
      simp [Registration.AddCodecFactory, hd]
    rw [e]
    refine ⟨rfl, ?_⟩
    unfold Registration.AddDecoder
    by_cases hk : typeName ∈ re.decodersMap
    · simp [(GoMap.has_iff_mem _ _).mpr hk, Outcome.isFatal, Outcome.state, hk]
    · simp [(GoMap.has_eq_false_iff _ _).mpr hk, Outcome.isFatal, Outcome.state, hk,
        AList.lookup_insert]

/-- Witness for C8 amended: a product that is neither is refused; a product
that is both is filed as Decoder and the encoder mapping stays empty. -/
theorem AddCodecFactory_classifies_decoder_first_witness :
    prepare.AddCodecFactory "none" (fun _ => noCodec) = .fatal (.unknownCodec "none") prepare ∧
    (prepare.AddCodecFactory "duplex" (fun _ => duplexCodec)).state.encodersMap =
      prepare.encodersMap ∧
    (prepare.AddCodecFactory "duplex" (fun _ => duplexCodec)).state.decodersMap.lookup "duplex" =
      some duplexCodec :=
  ⟨(AddCodecFactory_classifies_decoder_first prepare "none" (fun _ => noCodec)).1 rfl rfl,
   ((AddCodecFactory_classifies_decoder_first prepare "duplex" (fun _ => duplexCodec)).2
      rfl rfl).2.2.1,
   ((AddCodecFactory_classifies_decoder_first prepare "duplex" (fun _ => duplexCodec)).2
      rfl rfl).2.2.2 (by decide)⟩

/-! ## Theorems: `registerIfHit` -/

/-- C6: for an entry with section key `k` and fields `cfg` processed by
`registerIfHit`, on every registry `re`. If `disable` is true the entry is
skipped: the closure makes no call of `findFactory` and of no factory and
returns with the registry unchanged, whatever `re.factories` holds, so that
`registerIfHit` goes on with the entries after it exactly as if the entry
were not there. Otherwise the type name looked up is the `type` field when it
is non-empty and `k` when it is empty; when `re.factories` holds a factory
`f` under that name, `findFactory` returns it, the closure calls `f` and no
other factory, and the component registered is the product of `f`; when
`re.factories` holds nothing under that name, no factory is called and
`registerIfHit` panics with the registry unchanged. -/
theorem registerIfHit_disable_type_factory (re : Registration) (initFunc : InitFunc)
    (k : String) (cfg : Config) (rest : List (String × Value)) :
    (cfg.MustBool "disable" = true →
      re.registerEntryTraced initFunc k (.map cfg) = { events := [], outcome := .ok () re } ∧
      re.forEachEntryTraced initFunc ((k, .map cfg) :: rest) =
        re.forEachEntryTraced initFunc rest ∧
      re.registerIfHitTraced [(k, .map cfg)] initFunc =
        { events := [], outcome := .ok true re } ∧
      re.registerIfHit [(k, .map cfg)] initFunc = .ok true re) ∧
    (cfg.MustString "type" ≠ "" → effectiveType k cfg = cfg.MustString "type") ∧
    (cfg.MustString "type" = "" → effectiveType k cfg = k) ∧
    (cfg.MustBool "disable" = false →
      ∀ f, re.factories.lookup (effectiveType k cfg) = some f →
        re.findFactory (effectiveType k cfg) = (some f, true) ∧
        re.registerEntryTraced initFunc k (.map cfg) =
          { events := [.lookedUp (effectiveType k cfg),
              .invoked (effectiveType k cfg) (f ())],
            outcome := re.registerBundle initFunc (effectiveType k cfg) cfg (f ()) } ∧
        re.registerEntry initFunc k (.map cfg) =
          re.registerBundle initFunc (effectiveType k cfg) cfg (f ())) ∧
    (cfg.MustBool "disable" = false →
      re.factories.lookup (effectiveType k cfg) = none →
        re.findFactory (effectiveType k cfg) = (none, false) ∧
        re.registerEntryTraced initFunc k (.map cfg) =
          { events := [.lookedUp (effectiveType k cfg)],
            outcome := .fatal (.factoryNotRegistered (effectiveType k cfg)) re } ∧
        re.registerIfHitTraced ((k, .map cfg) :: rest) initFunc =
          { events := [.lookedUp (effectiveType k cfg)],
            outcome := .fatal (.factoryNotRegistered (effectiveType k cfg)) re } ∧
        re.registerIfHit ((k, .map cfg) :: rest) initFunc =
          .fatal (.factoryNotRegistered (effectiveType k cfg)) re) := by
  refine ⟨?_, ?_, ?_, ?_, ?_⟩
  · intro h
    have e : re.registerEntryTraced initFunc k (.map cfg) =
        { events := [], outcome := .ok () re } := by
      simp [Registration.registerEntryTraced, h]
    have e2 : re.forEachEntryTraced initFunc ((k, .map cfg) :: rest) =
        re.forEachEntryTraced initFunc rest := by
      rw [forEachEntryTraced_cons_ok re re initFunc k (.map cfg) rest [] () e]
      simp
    have e3 : re.registerIfHitTraced [(k, .map cfg)] initFunc =
        { events := [], outcome := .ok true re } := by
      rw [registerIfHitTraced_cons, forEachEntryTraced_cons_ok re re initFunc k (.map cfg) []
        [] () e]
      simp [Registration.forEachEntryTraced]
    refine ⟨e, e2, e3, ?_⟩
    simp [Registration.registerIfHit, e3]
  · intro h
    simp [effectiveType, h]
  · intro h
    simp [effectiveType, h]
  · intro h f hf
    have hff : re.findFactory (effectiveType k cfg) = (some f, true) := by
      simp [Registration.findFactory, hf]
    refine ⟨hff, ?_, ?_⟩
    · simp [Registration.registerEntryTraced, h, hff]
    · simp [Registration.registerEntry, Registration.registerEntryTraced, h, hff]
  · intro h hf
    have hff : re.findFactory (effectiveType k cfg) = (none, false) := by
      simp [Registration.findFactory, hf]
    have e : re.registerEntryTraced initFunc k (.map cfg) =
        { events := [.lookedUp (effectiveType k cfg)],
          outcome := .fatal (.factoryNotRegistered (effectiveType k cfg)) re } := by
      simp [Registration.registerEntryTraced, h, hff]
    have e3 : re.registerIfHitTraced ((k, .map cfg) :: rest) initFunc =
        { events := [.lookedUp (effectiveType k cfg)],
          outcome := .fatal (.factoryNotRegistered (effectiveType k cfg)) re } := by
      rw [registerIfHitTraced_cons,
        forEachEntryTraced_cons_fatal re re initFunc k (.map cfg) rest _ _ e]
    refine ⟨hff, e, e3, ?_⟩
    simp [Registration.registerIfHit, e3]

/-- Witness for C6, on `relayRegistry`, which holds the factory of
`pluginNamed "Relay"` under `relay` and the factory of `pluginNamed "Gpio"`
under `gpio`. The disabled section `relay: {disable: true}` calls nothing and
changes nothing, also on the fresh registry, which holds no factory. The
section `relay: {type: "gpio"}` looks up `gpio`, calls its factory and files
its product. The section `relay: {}` looks up `relay` and files the product
of that factory. On the fresh registry the section `relay: {type: "gpio"}`
panics for the missing factory `gpio` after the lookup, with no factory
called. -/
theorem registerIfHit_disable_type_factory_witness :
    (relayRegistry.registerIfHitTraced [("relay", .map [("disable", .bool true)])]
        (fun b _ => b) = { events := [], outcome := .ok true relayRegistry } ∧
      prepare.registerIfHitTraced [("relay", .map [("disable", .bool true)])]
        (fun b _ => b) = { events := [], outcome := .ok true prepare }) ∧
    (effectiveType "relay" [("type", .str "gpio")] = "gpio" ∧
      relayRegistry.registerEntryTraced (fun b _ => b) "relay"
          (.map [("type", .str "gpio")]) =
        { events := [.lookedUp "gpio", .invoked "gpio" (pluginNamed "Gpio")],
          outcome := relayRegistry.registerBundle (fun b _ => b) "gpio"
            [("type", .str "gpio")] (pluginNamed "Gpio") } ∧
      (relayRegistry.registerIfHit [("relay", .map [("type", .str "gpio")])]
        (fun b _ => b)).state.plugins = [pluginNamed "Gpio"]) ∧
    (effectiveType "relay" [] = "relay" ∧
      relayRegistry.registerEntryTraced (fun b _ => b) "relay" (.map []) =
        { events := [.lookedUp "relay", .invoked "relay" (pluginNamed "Relay")],
          outcome := relayRegistry.registerBundle (fun b _ => b) "relay" []
            (pluginNamed "Relay") } ∧
      (relayRegistry.registerIfHit [("relay", .map [])] (fun b _ => b)).state.plugins =
        [pluginNamed "Relay"]) ∧
    prepare.registerIfHitTraced [("relay", .map [("type", .str "gpio")])] (fun b _ => b) =
      { events := [.lookedUp "gpio"],
        outcome := .fatal (.factoryNotRegistered "gpio") prepare } :=
  ⟨⟨((registerIfHit_disable_type_factory relayRegistry (fun b _ => b) "relay"
        [("disable", .bool true)] []).1 (by decide)).2.2.1,
     ((registerIfHit_disable_type_factory prepare (fun b _ => b) "relay"
        [("disable", .bool true)] []).1 (by decide)).2.2.1⟩,
   ⟨(registerIfHit_disable_type_factory relayRegistry (fun b _ => b) "relay"
        [("type", .str "gpio")] []).2.1 (by decide),
     ((registerIfHit_disable_type_factory relayRegistry (fun b _ => b) "relay"
        [("type", .str "gpio")] []).2.2.2.1 (by decide) (fun _ => pluginNamed "Gpio")
        (by rfl)).2.1,
     by rfl⟩,
   ⟨(registerIfHit_disable_type_factory relayRegistry (fun b _ => b) "relay" [] []).2.2.1
        (by decide),
     ((registerIfHit_disable_type_factory relayRegistry (fun b _ => b) "relay" []
        []).2.2.2.1 (by decide) (fun _ => pluginNamed "Relay") (by rfl)).2.1,
     by rfl⟩,
   ((registerIfHit_disable_type_factory prepare (fun b _ => b) "relay"
      [("type", .str "gpio")] []).2.2.2.2 (by decide) (by rfl)).2.2.1⟩

theorem registerVirtualDevice_address_required (re : Registration) (bundleType : String)
    (cfg : Config) (device : Bundle)
    (ha : cfg.MustString "uuid" = "" ∨ cfg.MustString "group" = "" ∨
      cfg.MustString "private" = "") :
    re.registerVirtualDevice bundleType cfg device = .fatal (.nameRequired bundleType) re ∨
    re.registerVirtualDevice bundleType cfg device = .fatal (.addressRequired bundleType) re := by
  unfold Registration.registerVirtualDevice
  by_cases hn : cfg.MustString "name" = ""
  · left
    simp [hn]
  · right
    have hv : DeviceAddress.IsValid
        { UUID := cfg.MustString "uuid", Group := cfg.MustString "group",
          Private := cfg.MustString "private" } = false := by
      rcases ha with h | h | h <;> simp [DeviceAddress.IsValid, h]
    simp [hn, hv]

/-- C5 as stated fails: the entry `gate` is enabled, its factory yields a
product that is a VirtualDevice, and its `uuid` field is missing, yet
`registerIfHit` returns without a panic; the type switch tests `Driver`
first and the product, which is also a Driver, is filed in the driver list. -/
theorem registerIfHit_device_that_is_driver_not_fatal :
    gateSection.MustBool "disable" = false ∧
    gateRegistry.findFactory (effectiveType "gate" gateSection) =
      (some (fun _ => gateDriver), true) ∧
    gateDriver.isVirtualDevice = true ∧
    gateSection.MustString "uuid" = "" ∧
    (gateRegistry.registerIfHit [("gate", .map gateSection)] (fun b _ => b)).isFatal = false ∧
    (gateRegistry.registerIfHit [("gate", .map gateSection)] (fun b _ => b)).state.drivers =
      [{ gateDriver with topics := ["door/+/open"] }] :=
  ⟨by decide, by rfl, by decide, by decide, by rfl, by rfl⟩

/-- C5 amended: for every registry and every enabled entry whose factory
yields a product that the type switch handles as VirtualDevice (it is a
VirtualDevice and neither a Driver nor an Interceptor, the two cases tested
before), if the `uuid`, `group` or `private` field is missing or empty then
`registerIfHit` panics while processing that entry, for the missing name or
for the invalid address, and the registry is as it was before the entry: no
device has been added to a mapping or a list. -/
theorem registerIfHit_address_required (re : Registration) (initFunc : InitFunc)
    (k : String) (cfg : Config) (rest : List (String × Value)) (f : BundleFactory)
    (hd : cfg.MustBool "disable" = false)
    (hf : re.findFactory (effectiveType k cfg) = (some f, true))
    (hdr : (f ()).isDriver = false) (hic : (f ()).isInterceptor = false)
    (hvd : (f ()).isVirtualDevice = true)
    (ha : cfg.MustString "uuid" = "" ∨ cfg.MustString "group" = "" ∨
      cfg.MustString "private" = "") :
    (re.registerIfHit ((k, .map cfg) :: rest) initFunc =
        .fatal (.nameRequired (effectiveType k cfg)) re ∨
      re.registerIfHit ((k, .map cfg) :: rest) initFunc =
        .fatal (.addressRequired (effectiveType k cfg)) re) ∧
    (re.registerIfHit ((k, .map cfg) :: rest) initFunc).isFatal = true ∧
    (re.registerIfHit ((k, .map cfg) :: rest) initFunc).state.inputsMap = re.inputsMap ∧
    (re.registerIfHit ((k, .map cfg) :: rest) initFunc).state.outputsMap = re.outputsMap ∧
    (re.registerIfHit ((k, .map cfg) :: rest) initFunc).state.inputs = re.inputs ∧
    (re.registerIfHit ((k, .map cfg) :: rest) initFunc).state.outputs = re.outputs := by
  have step : ∀ why, re.registerVirtualDevice (effectiveType k cfg) cfg (f ()) = .fatal why re →
      re.registerIfHit ((k, .map cfg) :: rest) initFunc = .fatal why re := by
    intro why e
    rw [registerIfHit_cons]
    simp [Registration.registerEntry, Registration.registerEntryTraced, hd, hf,
      Registration.registerBundle,
      Registration.switchBundle, hdr, hic, hvd, e]
  rcases registerVirtualDevice_address_required re (effectiveType k cfg) cfg (f ()) ha with e | e
  · rw [step _ e]
    simp [Outcome.isFatal, Outcome.state]
  · rw [step _ e]
    simp [Outcome.isFatal, Outcome.state]

/-- Witness for C5 amended: the section `turnstile` omits `uuid`; the call
panics for the invalid address and no device is added. -/
theorem registerIfHit_address_required_witness :
    turnstileSection.MustString "uuid" = "" ∧
    turnstileRegistry.registerIfHit [("turnstile", .map turnstileSection)] (fun b _ => b) =
      .fatal (.addressRequired "turnstile") turnstileRegistry ∧
    (turnstileRegistry.registerIfHit [("turnstile", .map turnstileSection)]
      (fun b _ => b)).state.inputs = turnstileRegistry.inputs :=
  ⟨by decide, by rfl,
   (registerIfHit_address_required turnstileRegistry (fun b _ => b) "turnstile"
      turnstileSection [] (fun _ => turnstile) (by decide) (by rfl) (by decide) (by decide)
      (by decide) (Or.inl (by decide))).2.2.2.2.1⟩

/-! ## Lemmas on the read loop -/

theorem storeFront_take (buffer bytes : List Nat) :
    (storeFront buffer bytes).take bytes.length = bytes := by
  simp [storeFront]

theorem receiveConnLoop_buffer (handler : Option ServeHandler) (turns : List ConnTurn) :
    ∀ buffer, receiveConnLoop handler buffer turns = receiveConnLoop handler [] turns := by
  induction turns with
  | nil => intro buffer; rfl
  | cons turn rest ih =>
    intro buffer
    have e1 := ih (storeFront buffer turn.read.bytes)
    have e2 := ih (storeFront [] turn.read.bytes)
    have e3 := ih buffer
    simp only [receiveConnLoop, storeFront_take, e1, e2, e3]

theorem receiveConnLoop_reading (h : ServeHandler) (hnil : ∀ f, h f = none) (r : ReadOutcome)
    (hr : r.failsFatally = false) (buffer : List Nat) (rest : List ConnTurn) :
    receiveConnLoop (some h) buffer (ConnTurn.reading r :: rest) =
      { handled := expectedFrames [r] ++ (receiveConnLoop (some h) [] rest).handled
        reads := (receiveConnLoop (some h) [] rest).reads + 1
        result := (receiveConnLoop (some h) [] rest).result } := by
  have e1 := receiveConnLoop_buffer (some h) rest (storeFront buffer r.bytes)
  cases hre : r.err with
  | some e =>
    have ht : isNetTempErr e = true := by
      simpa [ReadOutcome.failsFatally, hre] using hr
    simp [receiveConnLoop, ConnTurn.reading, hre, ht, e1, expectedFrames, ReadOutcome.hasData,
      ConnRun.afterRead]
  | none =>
    by_cases hn : 0 < r.bytes.length
    · simp [receiveConnLoop, ConnTurn.reading, hre, hn, e1, expectedFrames,
        ReadOutcome.hasData, ConnRun.afterRead, ConnRun.afterFrame, storeFront_take,
        NewFramePacket, hnil]
    · simp [receiveConnLoop, ConnTurn.reading, hre, hn, e1, expectedFrames,
        ReadOutcome.hasData, ConnRun.afterRead]

theorem expectedFrames_cons (r : ReadOutcome) (rs : List ReadOutcome) :
    expectedFrames (r :: rs) = expectedFrames [r] ++ expectedFrames rs := by
  simp only [expectedFrames, List.filter_cons, List.filter_nil]
  cases r.hasData <;> simp

theorem receiveConnLoop_reads_then (h : ServeHandler) (hnil : ∀ f, h f = none)
    (pre : List ReadOutcome) (hpre : ∀ r ∈ pre, r.failsFatally = false)
    (tail : List ConnTurn) :
    ∀ buffer, receiveConnLoop (some h) buffer (pre.map ConnTurn.reading ++ tail) =
      { handled := expectedFrames pre ++ (receiveConnLoop (some h) [] tail).handled
        reads := pre.length + (receiveConnLoop (some h) [] tail).reads
        result := (receiveConnLoop (some h) [] tail).result } := by
  induction pre with
  | nil =>
    intro buffer
    rw [receiveConnLoop_buffer]
    simp [expectedFrames]
  | cons r rs ih =>
    intro buffer
    have hr : r.failsFatally = false := hpre r (List.mem_cons_self r rs)
    have hrs : ∀ x ∈ rs, x.failsFatally = false :=
      fun x hx => hpre x (List.mem_cons_of_mem r hx)
    rw [List.map_cons, List.cons_append, receiveConnLoop_reading h hnil r hr, ih hrs [],
      expectedFrames_cons r rs]
    simp only [List.append_assoc, List.length_cons]
    congr 1
    omega

/-! ## Theorems: serve loops -/

/-- C4: for a device whose handler always returns `nil` and a sequence of
reads presented while the cancellation signal is unset, none of them failing
with a non-transient error: the handler has been invoked exactly with the
bytes of the successful reads with `n > 0`, once each and in the order of the
reads, every read has been made and the loop is still running (reads with
`n = 0` and reads failing with a transient error invoke nothing and do not
end it); if the next read fails with an error that is not transient, the loop
ends and `receiveConn` returns that error; if instead the next iteration
finds the cancellation signal set, `receiveConn` returns `nil` with no further
read and no further handler call. -/
theorem receiveConn_delivers_in_order (d : AbcNetworkInputDevice) (h : ServeHandler)
    (hh : d.serverServeHandler = some h) (hnil : ∀ f, h f = none)
    (pre : List ReadOutcome) (hpre : ∀ r ∈ pre, r.failsFatally = false) :
    d.receiveConn (pre.map ConnTurn.reading) =
      { handled := expectedFrames pre, reads := pre.length, result := .running } ∧
    (∀ (r : ReadOutcome) (e : GoError) (post : List ReadOutcome),
      r.err = some e → isNetTempErr e = false →
      d.receiveConn ((pre ++ r :: post).map ConnTurn.reading) =
        { handled := expectedFrames pre, reads := pre.length + 1,
          result := .returned (some e) }) ∧
    (∀ (turn : ConnTurn) (post : List ConnTurn), turn.done = true →
      d.receiveConn (pre.map ConnTurn.reading ++ turn :: post) =
        { handled := expectedFrames pre, reads := pre.length, result := .returned none }) := by
  unfold AbcNetworkInputDevice.receiveConn
  rw [hh]
  refine ⟨?_, ?_, ?_⟩
  · have := receiveConnLoop_reads_then h hnil pre hpre [] (List.replicate d.maxBufferSize 0)
    simpa [receiveConnLoop] using this
  · intro r e post hre hne
    rw [List.map_append, List.map_cons,
      receiveConnLoop_reads_then h hnil pre hpre _ (List.replicate d.maxBufferSize 0)]
    simp [receiveConnLoop, ConnTurn.reading, hre, hne]
  · intro turn post hdone
    rw [receiveConnLoop_reads_then h hnil pre hpre _ (List.replicate d.maxBufferSize 0)]
    simp [receiveConnLoop, hdone]

/-- Witness for C4: frames `[1]`, `[2, 3]`, `[4]` with an empty read and a
timeout in between reach the handler in that order; a reset connection then
ends the loop with that error. -/
theorem receiveConn_delivers_in_order_witness :
    expectedFrames sampleReads = [[1], [2, 3], [4]] ∧
    tcpDevice.receiveConn (sampleReads.map ConnTurn.reading) =
      { handled := expectedFrames sampleReads, reads := sampleReads.length,
        result := .running } ∧
    tcpDevice.receiveConn ((sampleReads ++ resetRead :: []).map ConnTurn.reading) =
      { handled := expectedFrames sampleReads, reads := sampleReads.length + 1,
        result := .returned (some connReset) } :=
  ⟨by decide,
   (receiveConn_delivers_in_order tcpDevice (fun _ => none) rfl (fun _ => rfl)
      sampleReads (by decide)).1,
   (receiveConn_delivers_in_order tcpDevice (fun _ => none) rfl (fun _ => rfl)
      sampleReads (by decide)).2.1 resetRead connReset [] rfl (by decide)⟩

theorem tcpServeLoop_not_nil (turns : List ServeTurn) :
    (tcpServeLoop turns).result ≠ .returned none := by
  induction turns with
  | nil => simp [tcpServeLoop]
  | cons turn rest ih =>
    unfold tcpServeLoop
    by_cases hd : turn.done = true
    · simpa [hd, TcpRun.afterClose] using ih
    · cases ha : turn.accept with
      | err e =>
        by_cases ht : isNetTempErr e = true
        · simpa [hd, ht] using ih
        · simp [hd, ht]
      | client c => simpa [hd, TcpRun.afterClient] using ih

theorem tcpServeLoop_done (accepts : List AcceptOutcome) :
    tcpServeLoop (accepts.map (fun a => { done := true, accept := a })) =
      { closes := accepts.length, clients := [], result := .running } := by
  induction accepts with
  | nil => rfl
  | cons a rest ih => simp [tcpServeLoop, ih, TcpRun.afterClose]

theorem tcpServeLoop_append_result (pre post : List ServeTurn)
    (h : (tcpServeLoop post).result = .running) :
    (tcpServeLoop (pre ++ post)).result = (tcpServeLoop pre).result := by
  induction pre with
  | nil => simpa [tcpServeLoop] using h
  | cons turn rest ih =>
    rw [List.cons_append]
    unfold tcpServeLoop
    by_cases hd : turn.done = true
    · simpa [hd, TcpRun.afterClose] using ih
    · cases ha : turn.accept with
      | err e =>
        by_cases ht : isNetTempErr e = true
        · simpa [hd, ht] using ih
        · simp [hd, ht]
      | client c => simpa [hd, TcpRun.afterClient] using ih

/-- C3: what `tcpServe` does in the code. With the listener bound, whatever
the iterations observe, `tcpServe` does not return `nil`, and neither does
`Serve` of a TCP device. Once the cancellation signal is set, every iteration
takes the `Done()` case, closes the listener again and stays in the `for`
loop: after any number `n` of such iterations the listener has been closed
`n` times and the loop is still running, and after any history of earlier
iterations they leave the loop where that history left it, never making it
return. -/
theorem tcpServe_never_returns_nil (d : AbcNetworkInputDevice) (env : ServeEnv)
    (pre : List ServeTurn) (accepts : List AcceptOutcome) :
    (d.tcpServe none env.accepts).result ≠ .returned none ∧
    ({ d with networkType := "tcp" } : AbcNetworkInputDevice).Serve env ≠ .returned none ∧
    d.tcpServe none (accepts.map (fun a => { done := true, accept := a })) =
      { closes := accepts.length, clients := [], result := .running } ∧
    (d.tcpServe none (pre ++ accepts.map (fun a => { done := true, accept := a }))).result =
      (d.tcpServe none pre).result := by
  refine ⟨tcpServeLoop_not_nil env.accepts, ?_, tcpServeLoop_done accepts, ?_⟩
  · unfold AbcNetworkInputDevice.Serve
    by_cases hh : d.serverServeHandler.isNone = true
    · simp [hh]
    · cases hl : env.listen with
      | none =>
        have := tcpServeLoop_not_nil env.accepts
        simpa [hh, AbcNetworkInputDevice.tcpServe, hl] using this
      | some e => simp [hh, AbcNetworkInputDevice.tcpServe, hl]
  · exact tcpServeLoop_append_result pre _ (by rw [tcpServeLoop_done])

/-- C9: what `Serve` of `AbcUdpReaderDevice` does in the code when a read
fails. With a handler installed and the socket bound, an iteration that finds
the cancellation signal unset and whose `ReadFrom` fails ends the loop and
`Serve` returns the error of the read, whether or not the error is transient;
so a read-deadline timeout on an idle socket is returned to the caller. -/
theorem udpReader_serve_returns_read_error (maxBufferSize : Nat) (h : ServeHandler)
    (bytes : List Nat) (e : GoError) (rest : List ConnTurn) :
    ({ maxBufferSize := maxBufferSize, onServeHandler := some h } : AbcUdpReaderDevice).Serve
        none (ConnTurn.reading { bytes := bytes, err := some e } :: rest) =
      { handled := [], reads := 1, result := .returned (some e) } ∧
    isNetTempErr readTimeout = true ∧
    ({ maxBufferSize := 1024, onServeHandler := some (fun _ => none) } : AbcUdpReaderDevice).Serve
        none [ConnTurn.reading { bytes := [], err := some readTimeout }] =
      { handled := [], reads := 1, result := .returned (some readTimeout) } := by
  refine ⟨?_, by decide, ?_⟩ <;>
    simp [AbcUdpReaderDevice.Serve, udpReaderLoop, ConnTurn.reading]

end Gecko
